import Mathlib

/-!
Verification of the configuration-resolution module of the repository
(file config/settings.py). The module runs once at process start: it reads
environment variables, validates the required ones, parses a database
connection string, assembles derived lists and flags, and raises a fatal
configuration error on any missing or malformed required value.

The embedding below translates the module body into a pure function
resolve over an environment snapshot. The external library function
dj_database_url.parse is a parameter of resolve; the computed path of the
env-definition file is a string parameter envPath.
-/

/-- An environment snapshot: a mapping from variable name to value,
the result of os.environ.get per key. -/
def Env : Type := String → Option String

/-- Python truthiness of an optional string: None and the empty string are
falsy, every other string is truthy. -/
def pyTruthy : Option String → Bool
  | none => false
  | some s => !(s == "")

/-- os.environ.get with a default value. -/
def envGetD (env : Env) (key dflt : String) : String :=
  (env key).getD dflt

/-- Accumulator-style splitting of a character list at commas. -/
def splitCommaAux : List Char → List Char → List String
  | [], acc => [String.mk acc.reverse]
  | c :: cs, acc =>
    if c == ',' then String.mk acc.reverse :: splitCommaAux cs []
    else splitCommaAux cs (c :: acc)

/-- Python s.split(",") for a comma separator. -/
def pySplitComma (s : String) : List String := splitCommaAux s.data []

/-- The characters Python str.strip() removes. -/
def pyIsSpace (c : Char) : Bool :=
  c == ' ' || c == '\t' || c == '\n' || c == '\r' || c == '\x0b' || c == '\x0c'

/-- Python s.strip(): drop whitespace from both ends. -/
def pyStrip (s : String) : String :=
  String.mk (((s.data.dropWhile pyIsSpace).reverse.dropWhile pyIsSpace).reverse)

/-- Python s[:n] slicing by code points. -/
def pyTake (s : String) (n : Nat) : String := String.mk (s.data.take n)

/-- Whether the first list is a leading block of the second. -/
def listLead : List Char → List Char → Bool
  | [], _ => true
  | _ :: _, [] => false
  | a :: as, b :: bs => a == b && listLead as bs

/-- Whether the first list occurs contiguously inside the second. -/
def listOccurs (needle : List Char) : List Char → Bool
  | [] => listLead needle []
  | c :: cs => listLead needle (c :: cs) || listOccurs needle cs

/-- Python substring test: needle in hay. -/
def strContains (hay needle : String) : Bool := listOccurs needle.data hay.data

/-- The configuration error type raised by the module
(django.core.exceptions.ImproperlyConfigured). -/
structure ImproperlyConfigured where
  message : String
  deriving DecidableEq

/-- A connection descriptor as produced by dj_database_url.parse: the
settings-dictionary keys the module reads. Absent keys are none, matching
the dictionary get calls with defaults in the source. -/
structure DbConfig where
  ENGINE : Option String
  NAME : Option String := none
  HOST : Option String := none
  PORT : Option String := none
  deriving DecidableEq

/-- Line 33 of settings.py: the debug flag is the comparison of the
environment value (default "False") with the exact literal "True". -/
def DEBUG (env : Env) : Bool := envGetD env "DJANGO_DEBUG" "False" == "True"

/-- Lines 36 to 52 of settings.py: start from the comma-split environment
list when the variable is truthy, extend with the fixed defaults, then
strip every entry and drop the falsy (empty) ones. -/
def ALLOWED_HOSTS (env : Env) : List String :=
  let envHosts := envGetD env "DJANGO_ALLOWED_HOSTS" ""
  let hosts :=
    (if envHosts == "" then [] else pySplitComma envHosts) ++
      [".railway.app", "localhost", "127.0.0.1", "[::1]"]
  (hosts.map pyStrip).filter (fun h => !(h == ""))

/-- Line 31 of settings.py: the secret-key error message. -/
def secretKeyErrMsg : String := "DJANGO_SECRET_KEY is not set in environment variables"

/-- Lines 60 to 64 of settings.py: the missing-database-URL error message,
which ends with the attempted env-file path. -/
def dbUrlMissingMsg (envPath : String) : String :=
  "DATABASE_URL environment variable is not set.\n" ++
    "Please add DATABASE_URL to your .env file with Railway PostgreSQL connection string.\n" ++
    "Current .env path: " ++ envPath

/-- Lines 75 to 78 of settings.py: the message of the inner engine-check
error, naming the offending engine. -/
def engineErrMsg (engine : String) : String :=
  "Database ENGINE should be PostgreSQL, but got: " ++ engine ++ "\n" ++
    "Please use a PostgreSQL database from Railway."

/-- Lines 91 to 94 of settings.py: the wrapper message of the except
clause, embedding the text of the caught exception. -/
def parseFailMsg (e url : String) : String :=
  "Failed to parse DATABASE_URL: " ++ e ++ "\n" ++
    "DATABASE_URL value: " ++ pyTake url 100 ++ "..."

/-- Lines 69 to 94 of settings.py: the try block around parsing and the
engine check. The inner engine-check error raised inside the try block is
itself caught by the except-Exception clause, so it reaches the caller
wrapped in the parse-failure message, as does a failure of parse itself. -/
def db_config_step (parse : String → Except String DbConfig) (url : String) :
    Except ImproperlyConfigured DbConfig :=
  match parse url with
  | .error e => .error ⟨parseFailMsg e url⟩
  | .ok cfg =>
    let engine := cfg.ENGINE.getD ""
    if !(strContains engine "postgresql") && !(strContains engine "postgres") then
      .error ⟨parseFailMsg (engineErrMsg engine) url⟩
    else
      .ok cfg

/-- Line 181 of settings.py: the cloudinary warning text. -/
def cloudinaryWarnMsg : String :=
  "⚠️  WARNING: Cloudinary credentials not fully set in .env file"

/-- Line 233 of settings.py: the CORS origin list is the comma-split of the
environment value, the single local development origin being only the
fallback default of the get call. -/
def CORS_ALLOWED_ORIGINS (env : Env) : List String :=
  pySplitComma (envGetD env "CORS_ALLOWED_ORIGINS" "http://localhost:5173")

/-- Lines 237 to 245 of settings.py: an optional platform-domain HTTPS
origin followed by the fixed defaults. -/
def CSRF_TRUSTED_ORIGINS (env : Env) : List String :=
  (if pyTruthy (env "RAILWAY_PUBLIC_DOMAIN") then
      ["https://" ++ (env "RAILWAY_PUBLIC_DOMAIN").getD ""]
    else []) ++
    ["https://*.railway.app", "http://localhost:5173", "http://localhost:8000",
      "http://127.0.0.1:8000"]

/-- Line 249 of settings.py. -/
def SECURE_SSL_REDIRECT (env : Env) : Bool := !(DEBUG env)

/-- Line 250 of settings.py. -/
def SESSION_COOKIE_SECURE (env : Env) : Bool := !(DEBUG env)

/-- Line 251 of settings.py. -/
def CSRF_COOKIE_SECURE (env : Env) : Bool := !(DEBUG env)

/-- The settings the module resolves from the environment (the fields the
claims are about; the constant registries of the module are omitted except
for the constant CORS credentials flag). -/
structure Settings where
  SECRET_KEY : String
  DEBUG : Bool
  ALLOWED_HOSTS : List String
  DATABASES_default : DbConfig
  CLOUD_NAME : Option String
  API_KEY : Option String
  API_SECRET : Option String
  warnings : List String
  CORS_ALLOWED_ORIGINS : List String
  CORS_ALLOW_CREDENTIALS : Bool
  CSRF_TRUSTED_ORIGINS : List String
  SECURE_SSL_REDIRECT : Bool
  SESSION_COOKIE_SECURE : Bool
  CSRF_COOKIE_SECURE : Bool
  deriving DecidableEq

/-- The module body as one function, in source order: the secret-key check
(lines 29 to 31), the database-URL presence check (lines 57 to 64), the
parse-and-validate block (lines 69 to 94), the cloudinary credential
warning (lines 176 to 187), and the derived lists and flags. parse stands
for the external dj_database_url.parse (its conn_max_age and ssl_require
arguments are fixed by the call site); envPath is the computed env-file
path that appears in the missing-database-URL message. -/
def resolve (parse : String → Except String DbConfig) (envPath : String) (env : Env) :
    Except ImproperlyConfigured Settings :=
  let secretKeyOpt := env "DJANGO_SECRET_KEY"
  if !(pyTruthy secretKeyOpt) then
    .error ⟨secretKeyErrMsg⟩
  else
    let dbUrlOpt := env "DATABASE_URL"
    if !(pyTruthy dbUrlOpt) then
      .error ⟨dbUrlMissingMsg envPath⟩
    else
      match db_config_step parse (dbUrlOpt.getD "") with
      | .error e => .error e
      | .ok cfg =>
        let cloudName := env "CLOUD_NAME"
        let apiKey := env "API_KEY"
        let apiSecret := env "API_SECRET"
        .ok
          { SECRET_KEY := secretKeyOpt.getD ""
            DEBUG := DEBUG env
            ALLOWED_HOSTS := ALLOWED_HOSTS env
            DATABASES_default := cfg
            CLOUD_NAME := cloudName
            API_KEY := apiKey
            API_SECRET := apiSecret
            warnings :=
              if !(pyTruthy cloudName && pyTruthy apiKey && pyTruthy apiSecret) then
                [cloudinaryWarnMsg]
              else []
            CORS_ALLOWED_ORIGINS := CORS_ALLOWED_ORIGINS env
            CORS_ALLOW_CREDENTIALS := true
            CSRF_TRUSTED_ORIGINS := CSRF_TRUSTED_ORIGINS env
            SECURE_SSL_REDIRECT := SECURE_SSL_REDIRECT env
            SESSION_COOKIE_SECURE := SESSION_COOKIE_SECURE env
            CSRF_COOKIE_SECURE := CSRF_COOKIE_SECURE env }

/-- The environment variables the module reads. -/
def readKeys : List String :=
  ["DJANGO_SECRET_KEY", "DJANGO_DEBUG", "DJANGO_ALLOWED_HOSTS", "DATABASE_URL",
    "CLOUD_NAME", "API_KEY", "API_SECRET", "CORS_ALLOWED_ORIGINS",
    "RAILWAY_PUBLIC_DOMAIN"]

/-- An empty environment snapshot. -/
def noEnv : Env := fun _ => none

/-- A postgres connection descriptor of the shape dj_database_url returns
for a railway connection string. -/
def pgConfig : DbConfig :=
  { ENGINE := some "django.db.backends.postgresql"
    NAME := some "railway"
    HOST := some "db.railway.internal"
    PORT := some "5432" }

/-- A key-value-store descriptor, whose engine is not in the postgres
family. -/
def redisConfig : DbConfig := { ENGINE := some "django_redis.cache.RedisCache" }

/-- A concrete stand-in for dj_database_url.parse, used in witnesses. -/
def testParse : String → Except String DbConfig := fun url =>
  if url == "postgres://u:p@db.railway.internal:5432/railway" then .ok pgConfig
  else if url == "redis://localhost:6379/0" then .ok redisConfig
  else .error "No support for SCHEME bad"

/-- A complete environment snapshot used in witnesses: the cloudinary
credentials are absent and the debug variable holds the lowercase value. -/
def testEnvOk : Env := fun k =>
  if k == "DJANGO_SECRET_KEY" then some "k3y"
  else if k == "DJANGO_DEBUG" then some "true"
  else if k == "DJANGO_ALLOWED_HOSTS" then some "a.com, b.com"
  else if k == "DATABASE_URL" then some "postgres://u:p@db.railway.internal:5432/railway"
  else if k == "CORS_ALLOWED_ORIGINS" then some "https://a.com,"
  else none

/-- The settings resolve produces on testEnvOk. -/
def okSettings : Settings :=
  { SECRET_KEY := "k3y"
    DEBUG := false
    ALLOWED_HOSTS := ["a.com", "b.com", ".railway.app", "localhost", "127.0.0.1", "[::1]"]
    DATABASES_default := pgConfig
    CLOUD_NAME := none
    API_KEY := none
    API_SECRET := none
    warnings := [cloudinaryWarnMsg]
    CORS_ALLOWED_ORIGINS := ["https://a.com", ""]
    CORS_ALLOW_CREDENTIALS := true
    CSRF_TRUSTED_ORIGINS := ["https://*.railway.app", "http://localhost:5173",
      "http://localhost:8000", "http://127.0.0.1:8000"]
    SECURE_SSL_REDIRECT := true
    SESSION_COOKIE_SECURE := true
    CSRF_COOKIE_SECURE := true }

theorem resolve_testEnvOk : resolve testParse "/app/.env" testEnvOk = .ok okSettings := by
  rfl

theorem listLead_append (x b : List Char) : listLead x (x ++ b) = true := by
  induction x with
  | nil => rfl
  | cons a as ih => simp [listLead, ih]

theorem listOccurs_self (x b : List Char) : listOccurs x (x ++ b) = true := by
  cases x with
  | nil => cases b <;> simp [listOccurs, listLead]
  | cons a as => simp [listOccurs, listLead, listLead_append]

theorem listOccurs_prepend (x h t : List Char) (ht : listOccurs x t = true) :
    listOccurs x (h ++ t) = true := by
  induction h with
  | nil => exact ht
  | cons c cs ih => simp [listOccurs, ih]

theorem listOccurs_refl (x : List Char) : listOccurs x x = true := by
  have h := listOccurs_self x []
  simpa using h

theorem str_append_assoc (a b c : String) : (a ++ b) ++ c = a ++ (b ++ c) := by
  cases a with
  | mk da =>
    cases b with
    | mk db =>
      cases c with
      | mk dc =>
        apply String.ext
        simp [String.data_append, List.append_assoc]

theorem strContains_prepend (h s x : String) (hs : strContains s x = true) :
    strContains (h ++ s) x = true := by
  simp only [strContains, String.data_append] at *
  exact listOccurs_prepend _ _ _ hs

theorem strContains_self_append (x b : String) : strContains (x ++ b) x = true := by
  simp only [strContains, String.data_append]
  exact listOccurs_self _ _

theorem strContains_refl (x : String) : strContains x x = true := by
  simp only [strContains]
  exact listOccurs_refl _

theorem resolve_ok_fields (parse : String → Except String DbConfig) (envPath : String)
    (env : Env) (s : Settings) (h : resolve parse envPath env = .ok s) :
    s.DEBUG = DEBUG env ∧ s.ALLOWED_HOSTS = ALLOWED_HOSTS env ∧
    s.CORS_ALLOWED_ORIGINS = CORS_ALLOWED_ORIGINS env ∧
    s.CSRF_TRUSTED_ORIGINS = CSRF_TRUSTED_ORIGINS env ∧
    s.SECURE_SSL_REDIRECT = SECURE_SSL_REDIRECT env ∧
    s.SESSION_COOKIE_SECURE = SESSION_COOKIE_SECURE env ∧
    s.CSRF_COOKIE_SECURE = CSRF_COOKIE_SECURE env := by
  simp only [resolve] at h
  split at h
  · simp at h
  · split at h
    · simp at h
    · split at h
      · simp at h
      · simp only [Except.ok.injEq] at h
        subst h
        exact ⟨rfl, rfl, rfl, rfl, rfl, rfl, rfl⟩

/-- C1: when the secret-key variable is absent or falsy, resolution stops
with the secret-key configuration error, whatever the database parsing
function would do: no parse is attempted. -/
theorem C1_no_secret_key_skips_db (envPath : String) (env : Env)
    (h : pyTruthy (env "DJANGO_SECRET_KEY") = false) :
    ∀ parse : String → Except String DbConfig,
      resolve parse envPath env = .error ⟨secretKeyErrMsg⟩ := by
  intro parse
  simp [resolve, h]

theorem C1_witness :
    pyTruthy (noEnv "DJANGO_SECRET_KEY") = false ∧
    resolve testParse "/app/.env" noEnv = .error ⟨secretKeyErrMsg⟩ :=
  ⟨rfl, C1_no_secret_key_skips_db "/app/.env" noEnv rfl testParse⟩

/-- C10: a secret key set to the empty string is treated exactly like an
absent one: resolution raises the secret-key configuration error and gives
the same result as on the snapshot with the variable removed. -/
theorem C10_empty_secret_key_like_absent (parse : String → Except String DbConfig)
    (envPath : String) (env : Env) (h : env "DJANGO_SECRET_KEY" = some "") :
    resolve parse envPath env = .error ⟨secretKeyErrMsg⟩ ∧
    resolve parse envPath env =
      resolve parse envPath (fun k => if k == "DJANGO_SECRET_KEY" then none else env k) := by
  constructor
  · simp [resolve, h, pyTruthy]
  · simp [resolve, h, pyTruthy]

theorem C10_witness :
    resolve testParse "/app/.env"
        (fun k => if k == "DJANGO_SECRET_KEY" then some "" else noEnv k) =
      .error ⟨secretKeyErrMsg⟩ ∧
    resolve testParse "/app/.env"
        (fun k => if k == "DJANGO_SECRET_KEY" then some "" else noEnv k) =
      resolve testParse "/app/.env"
        (fun k => if k == "DJANGO_SECRET_KEY" then none
          else (fun k2 => if k2 == "DJANGO_SECRET_KEY" then some "" else noEnv k2) k) :=
  C10_empty_secret_key_like_absent testParse "/app/.env"
    (fun k => if k == "DJANGO_SECRET_KEY" then some "" else noEnv k) (by decide)

/-- C4: the debug flag is true exactly when the debug variable holds the
literal "True"; the flag carried by a successful resolution agrees with it. -/
theorem C4_debug_iff (env : Env) :
    (DEBUG env = true ↔ env "DJANGO_DEBUG" = some "True") ∧
    (∀ (parse : String → Except String DbConfig) (envPath : String) (s : Settings),
      resolve parse envPath env = .ok s → s.DEBUG = DEBUG env) := by
  constructor
  · constructor
    · intro h
      cases hv : env "DJANGO_DEBUG" with
      | none => simp [DEBUG, envGetD, hv] at h
      | some v =>
        simp [DEBUG, envGetD, hv] at h
        rw [h]
    · intro h
      simp [DEBUG, envGetD, h]
  · intro parse envPath s hok
    exact (resolve_ok_fields parse envPath env s hok).1

theorem C4_witness :
    (DEBUG testEnvOk = true ↔ testEnvOk "DJANGO_DEBUG" = some "True") ∧
    okSettings.DEBUG = DEBUG testEnvOk :=
  ⟨(C4_debug_iff testEnvOk).1,
    (C4_debug_iff testEnvOk).2 testParse "/app/.env" okSettings resolve_testEnvOk⟩

/-- C3: for any value of the allowed-hosts variable, the resolved list is
the comma-split, stripped, empty-filtered environment entries followed by
the fixed defaults, and never contains the empty string. -/
theorem C3_allowed_hosts (env : Env) (v : String)
    (h : env "DJANGO_ALLOWED_HOSTS" = some v) :
    ALLOWED_HOSTS env =
      ((pySplitComma v).map pyStrip).filter (fun x => !(x == "")) ++
        [".railway.app", "localhost", "127.0.0.1", "[::1]"] ∧
    "" ∉ ALLOWED_HOSTS env := by
  constructor
  · simp only [ALLOWED_HOSTS, envGetD, h, Option.getD_some]
    by_cases hv : v = ""
    · subst hv
      decide
    · have hb : (v == "") = false := by
        simp [hv]
      rw [List.map_append, List.filter_append, hb]
      rfl
  · simp [ALLOWED_HOSTS, List.mem_filter]

theorem C3_witness :
    "a.com" ∈ ALLOWED_HOSTS testEnvOk ∧ "b.com" ∈ ALLOWED_HOSTS testEnvOk ∧
    ".railway.app" ∈ ALLOWED_HOSTS testEnvOk ∧ "localhost" ∈ ALLOWED_HOSTS testEnvOk ∧
    "" ∉ ALLOWED_HOSTS testEnvOk := by
  have h := C3_allowed_hosts testEnvOk "a.com, b.com" (by decide)
  refine ⟨?_, ?_, ?_, ?_, h.2⟩
  · rw [h.1]; decide
  · rw [h.1]; decide
  · rw [h.1]; decide
  · rw [h.1]; decide

/-- C6: with the secret key present but the database-URL variable falsy,
resolution raises the configuration error whose message contains the
attempted env-file path. -/
theorem C6_missing_db_url (parse : String → Except String DbConfig) (envPath : String)
    (env : Env) (hsk : pyTruthy (env "DJANGO_SECRET_KEY") = true)
    (hdb : pyTruthy (env "DATABASE_URL") = false) :
    resolve parse envPath env = .error ⟨dbUrlMissingMsg envPath⟩ ∧
    strContains (dbUrlMissingMsg envPath) envPath = true := by
  constructor
  · simp [resolve, hsk, hdb]
  · simp only [dbUrlMissingMsg, str_append_assoc]
    exact strContains_prepend _ _ _ (strContains_prepend _ _ _
      (strContains_prepend _ _ _ (strContains_refl _)))

theorem C6_witness :
    resolve testParse "/app/.env"
        (fun k => if k == "DJANGO_SECRET_KEY" then some "k3y" else none) =
      .error ⟨dbUrlMissingMsg "/app/.env"⟩ ∧
    strContains (dbUrlMissingMsg "/app/.env") "/app/.env" = true :=
  C6_missing_db_url testParse "/app/.env"
    (fun k => if k == "DJANGO_SECRET_KEY" then some "k3y" else none)
    (by decide) (by decide)

/-- C2: with the secret key and a database URL present, a parsed descriptor
whose engine lies outside the postgres family makes resolution fail with a
configuration error whose message contains the offending engine, and a
parse failure makes resolution fail with a configuration error whose
message contains the text of the parse failure. -/
theorem C2_engine_validation (parse : String → Except String DbConfig) (envPath : String)
    (env : Env) (url : String)
    (hsk : pyTruthy (env "DJANGO_SECRET_KEY") = true)
    (hurl : env "DATABASE_URL" = some url)
    (hne : (url == "") = false) :
    (∀ cfg : DbConfig, parse url = .ok cfg →
      strContains (cfg.ENGINE.getD "") "postgresql" = false →
      strContains (cfg.ENGINE.getD "") "postgres" = false →
      resolve parse envPath env =
        .error ⟨parseFailMsg (engineErrMsg (cfg.ENGINE.getD "")) url⟩ ∧
      strContains (parseFailMsg (engineErrMsg (cfg.ENGINE.getD "")) url)
        (cfg.ENGINE.getD "") = true) ∧
    (∀ e : String, parse url = .error e →
      resolve parse envPath env = .error ⟨parseFailMsg e url⟩ ∧
      strContains (parseFailMsg e url) e = true) := by
  have hu : pyTruthy (some url) = true := by
    simp [pyTruthy, hne]
  constructor
  · intro cfg hok h1 h2
    constructor
    · simp [resolve, hsk, hurl, hu, db_config_step, hok, h1, h2]
    · simp only [parseFailMsg, engineErrMsg, str_append_assoc]
      exact strContains_prepend _ _ _ (strContains_prepend _ _ _
        (strContains_self_append _ _))
  · intro e herr
    constructor
    · simp [resolve, hsk, hurl, hu, db_config_step, herr]
    · simp only [parseFailMsg, str_append_assoc]
      exact strContains_prepend _ _ _ (strContains_self_append _ _)

theorem C2_witness :
    (resolve testParse "/app/.env"
        (fun k => if k == "DJANGO_SECRET_KEY" then some "k3y"
          else if k == "DATABASE_URL" then some "redis://localhost:6379/0" else none) =
      .error ⟨parseFailMsg (engineErrMsg "django_redis.cache.RedisCache")
        "redis://localhost:6379/0"⟩ ∧
      strContains (parseFailMsg (engineErrMsg "django_redis.cache.RedisCache")
        "redis://localhost:6379/0") "django_redis.cache.RedisCache" = true) ∧
    (resolve testParse "/app/.env"
        (fun k => if k == "DJANGO_SECRET_KEY" then some "k3y"
          else if k == "DATABASE_URL" then some "mysql://x" else none) =
      .error ⟨parseFailMsg "No support for SCHEME bad" "mysql://x"⟩ ∧
      strContains (parseFailMsg "No support for SCHEME bad" "mysql://x")
        "No support for SCHEME bad" = true) := by
  constructor
  · exact (C2_engine_validation testParse "/app/.env"
      (fun k => if k == "DJANGO_SECRET_KEY" then some "k3y"
        else if k == "DATABASE_URL" then some "redis://localhost:6379/0" else none)
      "redis://localhost:6379/0" (by decide) (by decide) (by decide)).1
      redisConfig (by rfl) (by decide) (by decide)
  · exact (C2_engine_validation testParse "/app/.env"
      (fun k => if k == "DJANGO_SECRET_KEY" then some "k3y"
        else if k == "DATABASE_URL" then some "mysql://x" else none)
      "mysql://x" (by decide) (by decide) (by decide)).2
      "No support for SCHEME bad" (by rfl)

/-- C7: the transport-security flags each equal the negation of the debug
flag, both as standalone settings and inside any successful resolution. -/
theorem C7_security_flags (env : Env) :
    (SECURE_SSL_REDIRECT env = !(DEBUG env) ∧
      SESSION_COOKIE_SECURE env = !(DEBUG env) ∧
      CSRF_COOKIE_SECURE env = !(DEBUG env)) ∧
    (∀ (parse : String → Except String DbConfig) (envPath : String) (s : Settings),
      resolve parse envPath env = .ok s →
      s.SECURE_SSL_REDIRECT = !(s.DEBUG) ∧ s.SESSION_COOKIE_SECURE = !(s.DEBUG) ∧
      s.CSRF_COOKIE_SECURE = !(s.DEBUG)) := by
  constructor
  · exact ⟨rfl, rfl, rfl⟩
  · intro parse envPath s hok
    have h := resolve_ok_fields parse envPath env s hok
    refine ⟨?_, ?_, ?_⟩
    · rw [h.2.2.2.2.1, h.1]
      rfl
    · rw [h.2.2.2.2.2.1, h.1]
      rfl
    · rw [h.2.2.2.2.2.2, h.1]
      rfl

theorem C7_witness :
    okSettings.SECURE_SSL_REDIRECT = !(okSettings.DEBUG) ∧
    okSettings.SESSION_COOKIE_SECURE = !(okSettings.DEBUG) ∧
    okSettings.CSRF_COOKIE_SECURE = !(okSettings.DEBUG) :=
  (C7_security_flags testEnvOk).2 testParse "/app/.env" okSettings resolve_testEnvOk

/-- C8: resolution is a deterministic function of the environment snapshot:
two snapshots agreeing on every variable the module reads resolve to
identical results. -/
theorem C8_deterministic (parse : String → Except String DbConfig) (envPath : String)
    (env1 env2 : Env) (h : ∀ k ∈ readKeys, env1 k = env2 k) :
    resolve parse envPath env1 = resolve parse envPath env2 := by
  have h1 : env1 "DJANGO_SECRET_KEY" = env2 "DJANGO_SECRET_KEY" := h _ (by decide)
  have h2 : env1 "DJANGO_DEBUG" = env2 "DJANGO_DEBUG" := h _ (by decide)
  have h3 : env1 "DJANGO_ALLOWED_HOSTS" = env2 "DJANGO_ALLOWED_HOSTS" := h _ (by decide)
  have h4 : env1 "DATABASE_URL" = env2 "DATABASE_URL" := h _ (by decide)
  have h5 : env1 "CLOUD_NAME" = env2 "CLOUD_NAME" := h _ (by decide)
  have h6 : env1 "API_KEY" = env2 "API_KEY" := h _ (by decide)
  have h7 : env1 "API_SECRET" = env2 "API_SECRET" := h _ (by decide)
  have h8 : env1 "CORS_ALLOWED_ORIGINS" = env2 "CORS_ALLOWED_ORIGINS" := h _ (by decide)
  have h9 : env1 "RAILWAY_PUBLIC_DOMAIN" = env2 "RAILWAY_PUBLIC_DOMAIN" := h _ (by decide)
  simp only [resolve, DEBUG, ALLOWED_HOSTS, CORS_ALLOWED_ORIGINS, CSRF_TRUSTED_ORIGINS,
    SECURE_SSL_REDIRECT, SESSION_COOKIE_SECURE, CSRF_COOKIE_SECURE, envGetD,
    h1, h2, h3, h4, h5, h6, h7, h8, h9]

theorem C8_witness :
    resolve testParse "/app/.env" testEnvOk =
      resolve testParse "/app/.env" (fun k => if k == "UNRELATED" then some "x" else testEnvOk k) :=
  C8_deterministic testParse "/app/.env" testEnvOk
    (fun k => if k == "UNRELATED" then some "x" else testEnvOk k) (by decide)

/-- C9: incomplete cloudinary credentials never abort resolution: with the
secret key, a database URL and a postgres-family parse in place, resolution
completes successfully and merely records the warning. -/
theorem C9_cloudinary_warning_only (parse : String → Except String DbConfig)
    (envPath : String) (env : Env) (url : String) (cfg : DbConfig)
    (hsk : pyTruthy (env "DJANGO_SECRET_KEY") = true)
    (hurl : env "DATABASE_URL" = some url)
    (hne : (url == "") = false)
    (hparse : parse url = .ok cfg)
    (heng : strContains (cfg.ENGINE.getD "") "postgres" = true)
    (hcloud : (pyTruthy (env "CLOUD_NAME") && pyTruthy (env "API_KEY") &&
      pyTruthy (env "API_SECRET")) = false) :
    ∃ s : Settings, resolve parse envPath env = .ok s ∧ s.warnings = [cloudinaryWarnMsg] := by
  have hres : resolve parse envPath env = .ok
      { SECRET_KEY := (env "DJANGO_SECRET_KEY").getD ""
        DEBUG := DEBUG env
        ALLOWED_HOSTS := ALLOWED_HOSTS env
        DATABASES_default := cfg
        CLOUD_NAME := env "CLOUD_NAME"
        API_KEY := env "API_KEY"
        API_SECRET := env "API_SECRET"
        warnings := [cloudinaryWarnMsg]
        CORS_ALLOWED_ORIGINS := CORS_ALLOWED_ORIGINS env
        CORS_ALLOW_CREDENTIALS := true
        CSRF_TRUSTED_ORIGINS := CSRF_TRUSTED_ORIGINS env
        SECURE_SSL_REDIRECT := SECURE_SSL_REDIRECT env
        SESSION_COOKIE_SECURE := SESSION_COOKIE_SECURE env
        CSRF_COOKIE_SECURE := CSRF_COOKIE_SECURE env } := by
    have hu : pyTruthy (some url) = true := by
      simp [pyTruthy, hne]
    simp [resolve, hsk, hurl, hu, db_config_step, hparse, heng, hcloud]
  exact ⟨_, hres, rfl⟩

theorem C9_witness :
    ∃ s : Settings, resolve testParse "/app/.env" testEnvOk = .ok s ∧
      s.warnings = [cloudinaryWarnMsg] :=
  C9_cloudinary_warning_only testParse "/app/.env" testEnvOk
    "postgres://u:p@db.railway.internal:5432/railway" pgConfig
    (by decide) (by decide) (by decide) (by rfl) (by decide) (by decide)

/-- C5 counterexample: with the CORS variable set to a value ending in a
comma, the resolved CORS list neither contains the fixed default origin nor
is free of empty entries, refuting the claim that origin lists concatenate
their defaults with the environment entries and trim empty entries. -/
theorem C5_counterexample :
    ¬(("http://localhost:5173" ∈ CORS_ALLOWED_ORIGINS
        (fun k => if k == "CORS_ALLOWED_ORIGINS" then some "https://a.com," else none)) ∧
      ("" ∉ CORS_ALLOWED_ORIGINS
        (fun k => if k == "CORS_ALLOWED_ORIGINS" then some "https://a.com," else none))) := by
  decide

/-- C5 amended: the CORS list is exactly the comma-split of the environment
value when the variable is set, with no default added and no empty entry
removed; when the variable is unset it is the single fallback origin; the
CSRF list is the optional platform-domain HTTPS origin followed by the
fixed defaults, again untrimmed. -/
theorem C5_amended_origins (env : Env) :
    (∀ v : String, env "CORS_ALLOWED_ORIGINS" = some v →
      CORS_ALLOWED_ORIGINS env = pySplitComma v) ∧
    (env "CORS_ALLOWED_ORIGINS" = none →
      CORS_ALLOWED_ORIGINS env = ["http://localhost:5173"]) ∧
    CSRF_TRUSTED_ORIGINS env =
      (if pyTruthy (env "RAILWAY_PUBLIC_DOMAIN") then
          ["https://" ++ (env "RAILWAY_PUBLIC_DOMAIN").getD ""]
        else []) ++
        ["https://*.railway.app", "http://localhost:5173", "http://localhost:8000",
          "http://127.0.0.1:8000"] := by
  refine ⟨?_, ?_, rfl⟩
  · intro v hv
    simp [CORS_ALLOWED_ORIGINS, envGetD, hv]
  · intro hv
    simp only [CORS_ALLOWED_ORIGINS, envGetD, hv, Option.getD_none]
    decide

theorem C5_witness :
    CORS_ALLOWED_ORIGINS
        (fun k => if k == "CORS_ALLOWED_ORIGINS" then some "https://a.com," else none) =
      ["https://a.com", ""] ∧
    CORS_ALLOWED_ORIGINS noEnv = ["http://localhost:5173"] ∧
    CSRF_TRUSTED_ORIGINS noEnv = ["https://*.railway.app", "http://localhost:5173",
      "http://localhost:8000", "http://127.0.0.1:8000"] := by
  refine ⟨?_, ?_, ?_⟩
  · exact ((C5_amended_origins
      (fun k => if k == "CORS_ALLOWED_ORIGINS" then some "https://a.com," else none)).1
      "https://a.com," (by decide)).trans (by decide)
  · exact (C5_amended_origins noEnv).2.1 (by decide)
  · exact ((C5_amended_origins noEnv).2.2).trans (by decide)
